import Mathlib

/-!
Shallow embedding of the reservation lifecycle of the sabores_lusitanos
backend (src/models/Reservation.js and the reservation routes of
src/routes/users.js).  Mongo documents become Lean structures, the
collection becomes a list, and each Express handler becomes a function
from a store (plus the request data) to a typed result and a new store.
Dates are modelled as integers (JavaScript Date values compared with the
same order), times and codes as strings.  HTTP error responses are mapped
to the error taxonomy of the specification (ValidationError for the 400
validation branches, ConflictError for the slot-taken and
already-in-target-state branches, InvalidTransitionError for the
terminal-state guards, AuthorizationError for 403, NotFoundError for 404,
StorageError for duplicate-key failures surfaced as 500).
-/

namespace SaboresLusitanos

/-- Reservation status enumeration of src/models/Reservation.js (line 53). -/
inductive Status
  | pending
  | confirmed
  | cancelled
  | completed
  | noShow
deriving DecidableEq, Repr

/-- The cancelledBy enumeration of src/models/Reservation.js (line 64). -/
inductive CancelActor
  | user
  | restaurant
  | system
deriving DecidableEq, Repr

/-- User roles of the user schema (src/unnamed/part_004): user,
restaurant_owner, admin. -/
inductive Role
  | user
  | restaurantOwner
  | admin
deriving DecidableEq, Repr

/-- The authenticated requester (req.user after the protect middleware). -/
structure Actor where
  id : Nat
  role : Role
deriving DecidableEq, Repr

/-- The slice of a restaurant document the reservation routes read:
its id, its owner and features.acceptsReservations. -/
structure Restaurant where
  id : Nat
  owner : Nat
  acceptsReservations : Bool
deriving DecidableEq, Repr

/-- A reservation document (src/models/Reservation.js, lines 3-79). -/
structure Reservation where
  id : Nat
  user : Nat
  restaurant : Nat
  date : Int
  time : String
  partySize : Nat
  specialRequests : Option String
  status : Status
  confirmationCode : String
  confirmedAt : Option Int
  cancelledAt : Option Int
  cancelledBy : Option CancelActor
  cancellationReason : Option String
  isActive : Bool
deriving DecidableEq, Repr

/-- The backing store: the reservations collection and the restaurants
collection. -/
structure Store where
  reservations : List Reservation
  restaurants : List Restaurant
deriving DecidableEq, Repr

/-- The error taxonomy of spec section 7, as surfaced by the routes. -/
inductive ApiError
  | validationError
  | notFoundError
  | policyError
  | conflictError
  | invalidTransitionError
  | authorizationError
  | storageError
deriving DecidableEq, Repr

/-- Reservation.findById. -/
def findReservation (s : Store) (rid : Nat) : Option Reservation :=
  s.reservations.find? (fun r => r.id == rid)

/-- Restaurant.findById. -/
def findRestaurant (s : Store) (rid : Nat) : Option Restaurant :=
  s.restaurants.find? (fun r => r.id == rid)

/-- Whether a status counts as active, i.e. is in the status list of the
double-booking findOne (src/routes/users.js lines 951-957). -/
def isActiveStatus : Status → Bool
  | .pending => true
  | .confirmed => true
  | _ => false

/-- The double-booking check of the creation route: a findOne on
(restaurant, date, time, status in [pending, confirmed]).  Note that the
query has no isActive filter. -/
def hasConflict (s : Store) (rid : Nat) (d : Int) (t : String) : Bool :=
  s.reservations.any
    (fun r => r.restaurant == rid && r.date == d && r.time == t &&
      isActiveStatus r.status)

/-- Number of active reservations persisted for a slot. -/
def activeOnSlot (s : Store) (rid : Nat) (d : Int) (t : String) : Nat :=
  (s.reservations.filter
    (fun r => r.restaurant == rid && r.date == d && r.time == t &&
      isActiveStatus r.status)).length

/-- The alphabet of generateConfirmationCode
(src/models/Reservation.js line 110). -/
def confirmationChars : List Char :=
  String.toList "ABCDEFGHIJKLMNOPQRSTUVWXYZ0123456789"

/-- generateConfirmationCode (src/models/Reservation.js lines 109-116):
six characters, each picked by an independent random draw
Math.floor(Math.random() * 36), which always lands in [0, 36). -/
def generateConfirmationCode (draw : Fin 6 → Fin 36) : String :=
  String.mk ((List.finRange 6).map (fun i => confirmationChars.getD (draw i).val 'A'))

/-- The body of POST /api/reservations after the express-validator chain
(src/routes/users.js lines 878-903). -/
structure CreateRequest where
  restaurant : Nat
  date : Int
  time : String
  partySize : Nat
  specialRequests : Option String
  contactName : String
  contactPhone : String
  contactEmail : String
deriving DecidableEq, Repr

/-- The express-validator chain of the creation route: time nonempty,
partySize an integer in [1, 20], contact name 2-50 characters, phone
9-15 characters, email well-formed (abstracted to containing an @;
the claims never depend on the finer shape of isEmail). -/
def validCreateBody (q : CreateRequest) : Bool :=
  (q.time != "") &&
  decide (1 ≤ q.partySize) && decide (q.partySize ≤ 20) &&
  decide (2 ≤ q.contactName.length) && decide (q.contactName.length ≤ 50) &&
  decide (9 ≤ q.contactPhone.length) && decide (q.contactPhone.length ≤ 15) &&
  q.contactEmail.toList.contains '@'

/-- The document Reservation.create builds for a new reservation: status
defaults to pending, isActive defaults to true, the pre-save hook fills
confirmationCode, timestamps of the lifecycle are unset. -/
def newReservationRecord (uid : Nat) (q : CreateRequest) (nid : Nat)
    (code : String) : Reservation :=
  { id := nid
    user := uid
    restaurant := q.restaurant
    date := q.date
    time := q.time
    partySize := q.partySize
    specialRequests := q.specialRequests
    status := .pending
    confirmationCode := code
    confirmedAt := none
    cancelledAt := none
    cancelledBy := none
    cancellationReason := none
    isActive := true }

/-- The insert half of creation: Reservation.create.  The schema declares
confirmationCode unique (src/models/Reservation.js line 58), so a
duplicate code makes the write fail (duplicate-key error, surfaced by
the catch block as a 500).  The compound slot index of line 155 is NOT
unique, so nothing at the storage layer restrains the slot triple. -/
def insertReservation (s : Store) (r : Reservation) : Except ApiError Store :=
  if s.reservations.any (fun x => x.confirmationCode == r.confirmationCode) then
    .error .storageError
  else
    .ok { s with reservations := s.reservations ++ [r] }

/-- The check half of POST /api/reservations (src/routes/users.js lines
903-977): validation, future-date check, restaurant lookup,
accepts-reservations policy, then the double-booking findOne.  Returns
the document to insert; the insert itself is a separate step. -/
def createCheckPhase (s : Store) (now : Int) (uid : Nat) (q : CreateRequest)
    (nid : Nat) (code : String) : Except ApiError Reservation :=
  if !validCreateBody q then .error .validationError
  else if q.date ≤ now then .error .validationError
  else
    match findRestaurant s q.restaurant with
    | none => .error .notFoundError
    | some rest =>
      if !rest.acceptsReservations then .error .policyError
      else if hasConflict s q.restaurant q.date q.time then .error .conflictError
      else .ok (newReservationRecord uid q nid code)

/-- POST /api/reservations run to completion by a single sequential
request: the check phase followed immediately by the insert. -/
def createReservation (s : Store) (now : Int) (uid : Nat) (q : CreateRequest)
    (nid : Nat) (code : String) : Except ApiError Reservation × Store :=
  match createCheckPhase s now uid q nid code with
  | .error e => (.error e, s)
  | .ok r =>
    match insertReservation s r with
    | .error e => (.error e, s)
    | .ok s2 => (.ok r, s2)

/-- Two concurrent creation requests whose findOne checks both run before
either insert (the interleaving the await points of the handler permit:
check A, check B, insert A, insert B). -/
def interleavedCreatePair (s : Store) (now : Int) (u1 u2 : Nat)
    (q1 q2 : CreateRequest) (id1 id2 : Nat) (c1 c2 : String) :
    Except ApiError Reservation × Except ApiError Reservation × Store :=
  match createCheckPhase s now u1 q1 id1 c1, createCheckPhase s now u2 q2 id2 c2 with
  | .ok r1, .ok r2 =>
    (match insertReservation s r1 with
     | .ok s1 =>
       (match insertReservation s1 r2 with
        | .ok s2 => (.ok r1, .ok r2, s2)
        | .error e2 => (.ok r1, .error e2, s1))
     | .error e1 =>
       (match insertReservation s r2 with
        | .ok s2 => (.error e1, .ok r2, s2)
        | .error e2 => (.error e1, .error e2, s)))
  | .ok r1, .error e2 =>
    (match insertReservation s r1 with
     | .ok s1 => (.ok r1, .error e2, s1)
     | .error e1 => (.error e1, .error e2, s))
  | .error e1, .ok r2 =>
    (match insertReservation s r2 with
     | .ok s2 => (.error e1, .ok r2, s2)
     | .error e2 => (.error e1, .error e2, s))
  | .error e1, .error e2 => (.error e1, .error e2, s)

/-- Access check shared by the update and cancel routes: a plain user must
own the reservation, a restaurant owner must own the targeted restaurant
(a missing restaurant also denies), an admin passes. -/
def canAccess (s : Store) (a : Actor) (r : Reservation) : Bool :=
  match a.role with
  | .user => r.user == a.id
  | .restaurantOwner =>
    (match findRestaurant s r.restaurant with
     | some rest => rest.owner == a.id
     | none => false)
  | .admin => true

/-- Modelled from the spec: the restaurantOwner middleware of
src/middleware/auth.js is not part of the sources; the route access
comments (Restaurant Owner or Admin) and spec section 4.3 say it admits
exactly the restaurant_owner and admin roles. -/
def restaurantOwnerGate (a : Actor) : Bool :=
  a.role == .restaurantOwner || a.role == .admin

/-- Replace the stored document by its saved version (document.save on an
existing document). -/
def replaceReservation (s : Store) (r2 : Reservation) : Store :=
  { s with reservations := s.reservations.map (fun x => if x.id == r2.id then r2 else x) }

/-- The body of PUT /api/reservations/:id.  findByIdAndUpdate(req.body)
applies every schema path present in the body, so lifecycle fields such
as status and confirmationCode are updatable through this route too. -/
structure UpdateBody where
  date : Option Int
  time : Option String
  partySize : Option Nat
  specialRequests : Option String
  status : Option Status
  confirmationCode : Option String
deriving DecidableEq, Repr

/-- The express-validator chain of the update route: each field optional;
time nonempty when present, partySize in [1, 20] when present,
specialRequests at most 500 characters when present. -/
def validUpdateBody (b : UpdateBody) : Bool :=
  (match b.time with
   | some t => t != ""
   | none => true) &&
  (match b.partySize with
   | some p => decide (1 ≤ p) && decide (p ≤ 20)
   | none => true) &&
  (match b.specialRequests with
   | some t => decide (t.length ≤ 500)
   | none => true)

/-- findByIdAndUpdate semantics on the modelled fields: set every path
present in the body, keep the rest. -/
def applyUpdate (r : Reservation) (b : UpdateBody) : Reservation :=
  { r with
    date := b.date.getD r.date
    time := b.time.getD r.time
    partySize := b.partySize.getD r.partySize
    specialRequests :=
      (match b.specialRequests with
       | some t => some t
       | none => r.specialRequests)
    status := b.status.getD r.status
    confirmationCode := b.confirmationCode.getD r.confirmationCode }

/-- Persist an updated document; the unique index on confirmationCode
still applies at the write, so a collision with another document fails
(duplicate key, surfaced as 500). -/
def saveUpdated (s : Store) (r2 : Reservation) : Except ApiError Reservation × Store :=
  if s.reservations.any
      (fun x => x.id != r2.id && x.confirmationCode == r2.confirmationCode) then
    (.error .storageError, s)
  else
    (.ok r2, replaceReservation s r2)

/-- PUT /api/reservations/:id (src/routes/users.js lines 996-1085):
validation, lookup, access check, future-date re-validation when a date
is supplied, then findByIdAndUpdate(req.body).  There is no
terminal-state guard and no re-run of the double-booking check. -/
def updateReservation (s : Store) (now : Int) (a : Actor) (rid : Nat)
    (b : UpdateBody) : Except ApiError Reservation × Store :=
  if !validUpdateBody b then (.error .validationError, s)
  else
    match findReservation s rid with
    | none => (.error .notFoundError, s)
    | some r =>
      if !canAccess s a r then (.error .authorizationError, s)
      else if (match b.date with
               | some d => decide (d ≤ now)
               | none => false) then (.error .validationError, s)
      else saveUpdated s (applyUpdate r b)

/-- The express-validator chain of the cancel route: reason optional, at
most 200 characters. -/
def validCancelBody (reason : Option String) : Bool :=
  match reason with
  | some t => decide (t.length ≤ 200)
  | none => true

/-- The effective cancellation reason: req.body.reason falls back to the
default text when absent or empty (JavaScript truthiness of the
expression reason or default). -/
def reasonOrDefault (reason : Option String) : String :=
  match reason with
  | some t => if t = "" then "Cancelada pelo utilizador" else t
  | none => "Cancelada pelo utilizador"

/-- PUT /api/reservations/:id/cancel (src/routes/users.js lines
1090-1168): validation, lookup, access check, the two status guards
(already cancelled, already completed), then document.cancel(reason,
cancelledBy) with cancelledBy user for a plain user and restaurant
otherwise. -/
def cancelReservation (s : Store) (now : Int) (a : Actor) (rid : Nat)
    (reason : Option String) : Except ApiError Reservation × Store :=
  if !validCancelBody reason then (.error .validationError, s)
  else
    match findReservation s rid with
    | none => (.error .notFoundError, s)
    | some r =>
      if !canAccess s a r then (.error .authorizationError, s)
      else if r.status == .cancelled then (.error .conflictError, s)
      else if r.status == .completed then (.error .invalidTransitionError, s)
      else
        let by2 : CancelActor := if a.role == .user then .user else .restaurant
        let r2 := { r with
          status := .cancelled
          cancelledAt := some now
          cancelledBy := some by2
          cancellationReason := some (reasonOrDefault reason) }
        (.ok r2, replaceReservation s r2)

/-- PUT /api/reservations/:id/confirm (src/routes/users.js lines
1173-1222): role gate, lookup, restaurant-ownership check, guards
(already confirmed, cancelled), then document.confirm which sets status
confirmed and confirmedAt to now. -/
def confirmReservation (s : Store) (now : Int) (a : Actor) (rid : Nat) :
    Except ApiError Reservation × Store :=
  if !restaurantOwnerGate a then (.error .authorizationError, s)
  else
    match findReservation s rid with
    | none => (.error .notFoundError, s)
    | some r =>
      match findRestaurant s r.restaurant with
      | none => (.error .authorizationError, s)
      | some rest =>
        if rest.owner != a.id then (.error .authorizationError, s)
        else if r.status == .confirmed then (.error .conflictError, s)
        else if r.status == .cancelled then (.error .invalidTransitionError, s)
        else
          let r2 := { r with status := .confirmed, confirmedAt := some now }
          (.ok r2, replaceReservation s r2)

/-- PUT /api/reservations/:id/complete (src/routes/users.js lines
1227-1276): role gate, lookup, ownership check, guards (already
completed, cancelled), then document.complete. -/
def completeReservation (s : Store) (a : Actor) (rid : Nat) :
    Except ApiError Reservation × Store :=
  if !restaurantOwnerGate a then (.error .authorizationError, s)
  else
    match findReservation s rid with
    | none => (.error .notFoundError, s)
    | some r =>
      match findRestaurant s r.restaurant with
      | none => (.error .authorizationError, s)
      | some rest =>
        if rest.owner != a.id then (.error .authorizationError, s)
        else if r.status == .completed then (.error .conflictError, s)
        else if r.status == .cancelled then (.error .invalidTransitionError, s)
        else
          let r2 := { r with status := .completed }
          (.ok r2, replaceReservation s r2)

/-- PUT /api/reservations/:id/no-show (src/routes/users.js lines
1281-1330): role gate, lookup, ownership check, guards (already no_show,
cancelled), then document.markNoShow. -/
def markNoShowReservation (s : Store) (a : Actor) (rid : Nat) :
    Except ApiError Reservation × Store :=
  if !restaurantOwnerGate a then (.error .authorizationError, s)
  else
    match findReservation s rid with
    | none => (.error .notFoundError, s)
    | some r =>
      match findRestaurant s r.restaurant with
      | none => (.error .authorizationError, s)
      | some rest =>
        if rest.owner != a.id then (.error .authorizationError, s)
        else if r.status == .noShow then (.error .conflictError, s)
        else if r.status == .cancelled then (.error .invalidTransitionError, s)
        else
          let r2 := { r with status := .noShow }
          (.ok r2, replaceReservation s r2)

/-- GET /api/reservations/confirm/:code (src/routes/users.js lines
1335-1365): a public findOne on confirmationCode with an isActive filter;
a missing match is a 404. -/
def getReservationByCode (s : Store) (code : String) : Except ApiError Reservation :=
  match s.reservations.find? (fun r => r.confirmationCode == code && r.isActive) with
  | none => .error .notFoundError
  | some r => .ok r

/-- The four lifecycle transition operations, dispatched uniformly. -/
inductive LifecycleOp
  | confirmL
  | cancelL
  | completeL
  | noShowL
deriving DecidableEq, Repr

/-- Run one lifecycle transition route. -/
def runLifecycle (op : LifecycleOp) (s : Store) (now : Int) (a : Actor)
    (rid : Nat) (reason : Option String) : Except ApiError Reservation × Store :=
  match op with
  | .confirmL => confirmReservation s now a rid
  | .cancelL => cancelReservation s now a rid reason
  | .completeL => completeReservation s a rid
  | .noShowL => markNoShowReservation s a rid

/-- The document the cancel route persists on success: document.cancel
applied with the route's cancelledBy mapping and effective reason. -/
def cancelledDoc (r : Reservation) (now : Int) (a : Actor)
    (reason : Option String) : Reservation :=
  { r with
    status := .cancelled
    cancelledAt := some now
    cancelledBy := some (if a.role == .user then CancelActor.user else CancelActor.restaurant)
    cancellationReason := some (reasonOrDefault reason) }

/-! Concrete fixtures used by counterexamples and witnesses. -/

/-- A reservation-accepting restaurant with id 10 owned by user 5. -/
def fxRestaurant : Restaurant := { id := 10, owner := 5, acceptsReservations := true }

/-- A well-formed creation request for restaurant 10, date 200, time 19:00. -/
def fxReq : CreateRequest :=
  { restaurant := 10, date := 200, time := "19:00", partySize := 4,
    specialRequests := none, contactName := "Ana Silva",
    contactPhone := "912345678", contactEmail := "ana@sabores.pt" }

/-- The same request aimed at a different slot (date 300, time 20:00). -/
def fxReqOther : CreateRequest := { fxReq with date := 300, time := "20:00" }

/-- The owner of restaurant 10, acting as restaurant_owner. -/
def fxOwner : Actor := { id := 5, role := .restaurantOwner }

/-- The requesting user. -/
def fxUser : Actor := { id := 7, role := .user }

/-- A pending reservation of user 7 on the 19:00 slot. -/
def fxPending : Reservation := newReservationRecord 7 fxReq 1 "AAAAAA"

/-- A second pending reservation (user 8) on the same slot. -/
def fxPending2 : Reservation := newReservationRecord 8 fxReq 2 "BBBBBB"

/-- fxPending moved to the completed status. -/
def fxCompleted : Reservation := { fxPending with status := .completed }

/-- A store holding only the restaurant. -/
def fxEmptyStore : Store := { reservations := [], restaurants := [fxRestaurant] }

/-- A store holding the pending reservation. -/
def fxPendingStore : Store := { reservations := [fxPending], restaurants := [fxRestaurant] }

/-- A store holding the completed reservation. -/
def fxCompletedStore : Store := { reservations := [fxCompleted], restaurants := [fxRestaurant] }

/-- A cancelled reservation sitting on the other slot, next to an active
pending reservation on the 19:00 slot. -/
def fxCancelledAway : Reservation :=
  { (newReservationRecord 7 fxReqOther 1 "AAAAAA") with status := .cancelled }

/-- Store for the update counterexamples: a cancelled reservation plus an
active one on the 19:00 slot. -/
def fxC4Store : Store :=
  { reservations := [fxCancelledAway, fxPending2], restaurants := [fxRestaurant] }

/-- An update body moving a reservation onto the 19:00 slot of date 200. -/
def fxMoveBody : UpdateBody :=
  { date := some 200, time := some "19:00", partySize := none,
    specialRequests := none, status := none, confirmationCode := none }

/-- An update body carrying a date in the past (relative to now 100). -/
def fxPastBody : UpdateBody := { fxMoveBody with date := some 50 }

/-- A reservation whose confirmation code is ABC123. -/
def fxABC : Reservation := newReservationRecord 7 fxReq 1 "ABC123"

/-- Store holding the ABC123 reservation. -/
def fxABCStore : Store := { reservations := [fxABC], restaurants := [fxRestaurant] }

/-- An update body that only rewrites the confirmation code. -/
def fxCodeBody : UpdateBody :=
  { date := none, time := none, partySize := none,
    specialRequests := none, status := none, confirmationCode := some "NEWCDE" }

/-- The pending reservation soft-deleted (isActive false, status untouched). -/
def fxSoftDeleted : Reservation := { fxPending with isActive := false }

/-- Store holding only the soft-deleted pending reservation. -/
def fxSoftStore : Store := { reservations := [fxSoftDeleted], restaurants := [fxRestaurant] }

/-- The store after the owner confirms the pending reservation at time 110. -/
def fxAfterConfirm : Store := (confirmReservation fxPendingStore 110 fxOwner 1).2

/-- The store after the user then cancels at time 120. -/
def fxAfterCancel : Store :=
  (cancelReservation fxAfterConfirm 120 fxUser 1 (some "change of plans")).2

/-- The reservation record held in fxAfterCancel. -/
def fxCancelledRec : Reservation :=
  { fxPending with
    status := .cancelled
    confirmedAt := some 110
    cancelledAt := some 120
    cancelledBy := some .user
    cancellationReason := some "change of plans" }

/-! Helper lemmas about the embedded operations. -/

/-- A status is active exactly when it is pending or confirmed. -/
theorem isActiveStatus_iff (st : Status) :
    isActiveStatus st = true ↔ st = .pending ∨ st = .confirmed := by
  cases st <;> simp [isActiveStatus]

/-- The double-booking findOne fires exactly when some reservation, active
by status, sits on the exact (restaurant, date, time) triple. -/
theorem hasConflict_iff (s : Store) (rid : Nat) (d : Int) (t : String) :
    hasConflict s rid d t = true ↔
      ∃ r ∈ s.reservations, r.restaurant = rid ∧ r.date = d ∧ r.time = t ∧
        (r.status = .pending ∨ r.status = .confirmed) := by
  simp [hasConflict, List.any_eq_true, isActiveStatus_iff, and_assoc]

/-- Inserting a reservation whose code collides with nothing succeeds and
appends the document. -/
theorem insertReservation_ok (s : Store) (r : Reservation)
    (h : ∀ x ∈ s.reservations, x.confirmationCode ≠ r.confirmationCode) :
    insertReservation s r = .ok { s with reservations := s.reservations ++ [r] } := by
  unfold insertReservation
  rw [if_neg]
  simp only [List.any_eq_true, beq_iff_eq, not_exists]
  intro x
  simp only [not_and]
  intro hx
  exact h x hx

/-- The check phase accepts a valid future-dated request against an
accepting restaurant when the slot is free. -/
theorem createCheckPhase_ok (s : Store) (now : Int) (uid : Nat) (q : CreateRequest)
    (nid : Nat) (code : String) (rest : Restaurant)
    (hv : validCreateBody q = true) (hfut : now < q.date)
    (hrest : findRestaurant s q.restaurant = some rest)
    (hacc : rest.acceptsReservations = true)
    (hnc : hasConflict s q.restaurant q.date q.time = false) :
    createCheckPhase s now uid q nid code = .ok (newReservationRecord uid q nid code) := by
  unfold createCheckPhase
  rw [hrest]
  simp [hv, hacc, hnc, not_le.mpr hfut]

/-- The check phase reports the slot conflict on a valid future-dated
request against an accepting restaurant when the slot is taken. -/
theorem createCheckPhase_conflict (s : Store) (now : Int) (uid : Nat)
    (q : CreateRequest) (nid : Nat) (code : String) (rest : Restaurant)
    (hv : validCreateBody q = true) (hfut : now < q.date)
    (hrest : findRestaurant s q.restaurant = some rest)
    (hacc : rest.acceptsReservations = true)
    (hc : hasConflict s q.restaurant q.date q.time = true) :
    createCheckPhase s now uid q nid code = .error .conflictError := by
  unfold createCheckPhase
  rw [hrest]
  simp [hv, hacc, hc, not_le.mpr hfut]

/-- Creation succeeds when the body is valid, the date is in the future,
the restaurant exists and accepts reservations, no active reservation sits
on the slot, and the generated code is fresh. -/
theorem create_ok (s : Store) (now : Int) (uid : Nat) (q : CreateRequest)
    (nid : Nat) (code : String) (rest : Restaurant)
    (hv : validCreateBody q = true) (hfut : now < q.date)
    (hrest : findRestaurant s q.restaurant = some rest)
    (hacc : rest.acceptsReservations = true)
    (hnc : hasConflict s q.restaurant q.date q.time = false)
    (hfresh : ∀ x ∈ s.reservations, x.confirmationCode ≠ code) :
    createReservation s now uid q nid code =
      (.ok (newReservationRecord uid q nid code),
       { s with reservations := s.reservations ++ [newReservationRecord uid q nid code] }) := by
  unfold createReservation
  rw [createCheckPhase_ok s now uid q nid code rest hv hfut hrest hacc hnc]
  simp [insertReservation_ok s (newReservationRecord uid q nid code) hfresh]

/-- Creation fails with the slot-taken conflict when the body is valid, the
date is in the future, the restaurant exists and accepts reservations, and
an active reservation sits on the slot. -/
theorem create_conflict (s : Store) (now : Int) (uid : Nat) (q : CreateRequest)
    (nid : Nat) (code : String) (rest : Restaurant)
    (hv : validCreateBody q = true) (hfut : now < q.date)
    (hrest : findRestaurant s q.restaurant = some rest)
    (hacc : rest.acceptsReservations = true)
    (hc : hasConflict s q.restaurant q.date q.time = true) :
    createReservation s now uid q nid code = (.error .conflictError, s) := by
  unfold createReservation
  rw [createCheckPhase_conflict s now uid q nid code rest hv hfut hrest hacc hc]

/-- A creation request whose date is not in the future is rejected as a
validation error with the store untouched, whatever else the body holds. -/
theorem create_past_date (s : Store) (now : Int) (uid : Nat) (q : CreateRequest)
    (nid : Nat) (code : String) (hpast : q.date ≤ now) :
    createReservation s now uid q nid code = (.error .validationError, s) := by
  unfold createReservation createCheckPhase
  cases hvb : validCreateBody q <;> simp [hpast]

/-- Behaviour of the confirm route once the reservation is found and the
actor passes the role gate and owns the restaurant: only the two status
guards of the handler decide the outcome. -/
theorem confirm_spec (s : Store) (now : Int) (a : Actor) (rid : Nat)
    (r : Reservation) (rest : Restaurant)
    (hgate : restaurantOwnerGate a = true)
    (hf : findReservation s rid = some r)
    (hrest : findRestaurant s r.restaurant = some rest)
    (howner : rest.owner = a.id) :
    confirmReservation s now a rid =
      if r.status = .confirmed then (.error .conflictError, s)
      else if r.status = .cancelled then (.error .invalidTransitionError, s)
      else
        (.ok { r with status := .confirmed, confirmedAt := some now },
         replaceReservation s { r with status := .confirmed, confirmedAt := some now }) := by
  simp [confirmReservation, hgate, hf, hrest, howner]

/-- Behaviour of the complete route under the same access conditions. -/
theorem complete_spec (s : Store) (a : Actor) (rid : Nat)
    (r : Reservation) (rest : Restaurant)
    (hgate : restaurantOwnerGate a = true)
    (hf : findReservation s rid = some r)
    (hrest : findRestaurant s r.restaurant = some rest)
    (howner : rest.owner = a.id) :
    completeReservation s a rid =
      if r.status = .completed then (.error .conflictError, s)
      else if r.status = .cancelled then (.error .invalidTransitionError, s)
      else
        (.ok { r with status := .completed },
         replaceReservation s { r with status := .completed }) := by
  simp [completeReservation, hgate, hf, hrest, howner]

/-- Behaviour of the no-show route under the same access conditions. -/
theorem noShow_spec (s : Store) (a : Actor) (rid : Nat)
    (r : Reservation) (rest : Restaurant)
    (hgate : restaurantOwnerGate a = true)
    (hf : findReservation s rid = some r)
    (hrest : findRestaurant s r.restaurant = some rest)
    (howner : rest.owner = a.id) :
    markNoShowReservation s a rid =
      if r.status = .noShow then (.error .conflictError, s)
      else if r.status = .cancelled then (.error .invalidTransitionError, s)
      else
        (.ok { r with status := .noShow },
         replaceReservation s { r with status := .noShow }) := by
  simp [markNoShowReservation, hgate, hf, hrest, howner]

/-- Behaviour of the cancel route once the body is valid, the reservation
is found and the actor passes the access check. -/
theorem cancel_spec (s : Store) (now : Int) (a : Actor) (rid : Nat)
    (r : Reservation) (reason : Option String)
    (hrsn : validCancelBody reason = true)
    (hf : findReservation s rid = some r)
    (hacc : canAccess s a r = true) :
    cancelReservation s now a rid reason =
      if r.status = .cancelled then (.error .conflictError, s)
      else if r.status = .completed then (.error .invalidTransitionError, s)
      else
        (.ok (cancelledDoc r now a reason),
         replaceReservation s (cancelledDoc r now a reason)) := by
  simp [cancelReservation, cancelledDoc, hrsn, hf, hacc]

/-- applyUpdate never touches the document id. -/
theorem applyUpdate_id (r : Reservation) (b : UpdateBody) :
    (applyUpdate r b).id = r.id := rfl

/-- The update route succeeds for a valid body on a found, accessible
reservation whose supplied date (if any) lies in the future, whatever the
current status of the reservation and whatever reservations occupy the
target slot, and it persists exactly the fields present in the body. -/
theorem update_ok (s : Store) (now : Int) (a : Actor) (rid : Nat)
    (b : UpdateBody) (r : Reservation)
    (hv : validUpdateBody b = true)
    (hf : findReservation s rid = some r)
    (hacc : canAccess s a r = true)
    (hdate : ∀ d, b.date = some d → now < d)
    (hfresh : ∀ x ∈ s.reservations, x.id ≠ r.id →
      x.confirmationCode ≠ (applyUpdate r b).confirmationCode) :
    updateReservation s now a rid b =
      (.ok (applyUpdate r b), replaceReservation s (applyUpdate r b)) := by
  have hd : (match b.date with
             | some d => decide (d ≤ now)
             | none => false) = false := by
    cases hb : b.date with
    | none => rfl
    | some d =>
      simp only [decide_eq_false_iff_not, not_le]
      exact hdate d hb
  have hsave : saveUpdated s (applyUpdate r b) =
      (.ok (applyUpdate r b), replaceReservation s (applyUpdate r b)) := by
    unfold saveUpdated
    rw [if_neg]
    simp only [List.any_eq_true, Bool.and_eq_true, bne_iff_ne, beq_iff_eq, not_exists]
    intro x
    simp only [not_and]
    intro hx hne
    exact hfresh x hx (by simpa [applyUpdate_id] using hne)
  simp [updateReservation, hv, hf, hacc, hd, hsave]

/-- The update route rejects a supplied date that is not in the future,
leaving the store untouched. -/
theorem update_past_date (s : Store) (now : Int) (a : Actor) (rid : Nat)
    (b : UpdateBody) (r : Reservation) (d : Int)
    (hv : validUpdateBody b = true)
    (hf : findReservation s rid = some r)
    (hacc : canAccess s a r = true)
    (hbd : b.date = some d) (hdle : d ≤ now) :
    updateReservation s now a rid b = (.error .validationError, s) := by
  simp [updateReservation, hv, hf, hacc, hbd, hdle]

/-! Claim theorems. -/

/-- C1: for a creation request that passes validation, the future-date
check and the restaurant checks, creation fails with ConflictError exactly
when some reservation with status pending or confirmed sits on the same
(restaurant, date, time) triple; when no such active reservation exists
(in particular after the blocking reservation is cancelled or completed),
creation succeeds. -/
theorem C1_create_conflict_iff (s : Store) (now : Int) (uid : Nat)
    (q : CreateRequest) (nid : Nat) (code : String) (rest : Restaurant)
    (hv : validCreateBody q = true) (hfut : now < q.date)
    (hrest : findRestaurant s q.restaurant = some rest)
    (hacc : rest.acceptsReservations = true)
    (hfresh : ∀ x ∈ s.reservations, x.confirmationCode ≠ code) :
    ((createReservation s now uid q nid code).1 = .error .conflictError ↔
      ∃ r ∈ s.reservations, r.restaurant = q.restaurant ∧ r.date = q.date ∧
        r.time = q.time ∧ (r.status = .pending ∨ r.status = .confirmed)) ∧
    ((¬ ∃ r ∈ s.reservations, r.restaurant = q.restaurant ∧ r.date = q.date ∧
        r.time = q.time ∧ (r.status = .pending ∨ r.status = .confirmed)) →
      (createReservation s now uid q nid code).1 =
        .ok (newReservationRecord uid q nid code)) := by
  have hiff := hasConflict_iff s q.restaurant q.date q.time
  cases hc : hasConflict s q.restaurant q.date q.time with
  | true =>
    rw [create_conflict s now uid q nid code rest hv hfut hrest hacc hc]
    exact ⟨iff_of_true rfl (hiff.mp hc), fun hno => absurd (hiff.mp hc) hno⟩
  | false =>
    rw [create_ok s now uid q nid code rest hv hfut hrest hacc hc hfresh]
    refine ⟨iff_of_false (by simp) ?_, fun _ => rfl⟩
    intro hex
    rw [← hiff, hc] at hex
    cases hex

/-- Witness for C1 at a concrete store: a pending reservation on the slot
makes an otherwise valid creation for the same triple fail with
ConflictError. -/
theorem C1_create_conflict_iff_witness :
    (createReservation fxPendingStore 100 8 fxReq 2 "BBBBBB").1 =
      .error .conflictError :=
  (C1_create_conflict_iff fxPendingStore 100 8 fxReq 2 "BBBBBB" fxRestaurant
    (by decide) (by decide) (by decide) (by decide) (by decide)).1.mpr
    ⟨fxPending, by decide, by decide, by decide, by decide, Or.inl (by decide)⟩

/-- C2: the claim asserts an atomic check-then-insert, but the compound
slot index of src/models/Reservation.js line 155 carries no uniqueness
option and the handler runs findOne and create as two separate awaited
steps.  Under the interleaving check-check-insert-insert both concurrent
requests succeed and two active reservations for the same
(restaurant, date, time) triple persist. -/
theorem C2_interleaved_race :
    (interleavedCreatePair fxEmptyStore 100 7 8 fxReq fxReq 1 2 "AAAAAA" "BBBBBB").1 =
      .ok (newReservationRecord 7 fxReq 1 "AAAAAA") ∧
    (interleavedCreatePair fxEmptyStore 100 7 8 fxReq fxReq 1 2 "AAAAAA" "BBBBBB").2.1 =
      .ok (newReservationRecord 8 fxReq 2 "BBBBBB") ∧
    activeOnSlot
      (interleavedCreatePair fxEmptyStore 100 7 8 fxReq fxReq 1 2 "AAAAAA" "BBBBBB").2.2
      10 200 "19:00" = 2 :=
  ⟨rfl, rfl, rfl⟩

/-- C3 counterexample: confirm applied to a completed reservation does not
fail; it succeeds and moves the status back to confirmed, so a lifecycle
transition is applied to a completed record. -/
theorem C3_confirm_on_completed :
    (findReservation fxCompletedStore 1).map Reservation.status = some .completed ∧
    (confirmReservation fxCompletedStore 150 fxOwner 1).1 =
      .ok { fxCompleted with status := .confirmed, confirmedAt := some 150 } :=
  ⟨rfl, rfl⟩

/-- C3 amended: terminal states block transitions only per the
per-operation guards.  A cancelled reservation blocks all four operations;
a completed reservation blocks cancel and complete but confirm and
markNoShow still succeed; a no_show reservation blocks only markNoShow,
while confirm, cancel and complete still succeed.  Every blocked call
fails with ConflictError when it targets the already-reached state and
with InvalidTransitionError on the cancelled (for cancel: completed)
guard. -/
theorem C3_terminal_guards (s : Store) (now : Int) (a : Actor) (rid : Nat)
    (r : Reservation) (rest : Restaurant) (reason : Option String)
    (hgate : restaurantOwnerGate a = true)
    (hf : findReservation s rid = some r)
    (hrest : findRestaurant s r.restaurant = some rest)
    (howner : rest.owner = a.id)
    (hrsn : validCancelBody reason = true)
    (hacc : canAccess s a r = true) :
    (r.status = .cancelled →
      (confirmReservation s now a rid).1 = .error .invalidTransitionError ∧
      (cancelReservation s now a rid reason).1 = .error .conflictError ∧
      (completeReservation s a rid).1 = .error .invalidTransitionError ∧
      (markNoShowReservation s a rid).1 = .error .invalidTransitionError) ∧
    (r.status = .completed →
      (cancelReservation s now a rid reason).1 = .error .invalidTransitionError ∧
      (completeReservation s a rid).1 = .error .conflictError ∧
      (confirmReservation s now a rid).1 =
        .ok { r with status := .confirmed, confirmedAt := some now } ∧
      (markNoShowReservation s a rid).1 = .ok { r with status := .noShow }) ∧
    (r.status = .noShow →
      (markNoShowReservation s a rid).1 = .error .conflictError ∧
      (confirmReservation s now a rid).1 =
        .ok { r with status := .confirmed, confirmedAt := some now } ∧
      (cancelReservation s now a rid reason).1 = .ok (cancelledDoc r now a reason) ∧
      (completeReservation s a rid).1 = .ok { r with status := .completed }) := by
  rw [confirm_spec s now a rid r rest hgate hf hrest howner,
      complete_spec s a rid r rest hgate hf hrest howner,
      noShow_spec s a rid r rest hgate hf hrest howner,
      cancel_spec s now a rid r reason hrsn hf hacc]
  refine ⟨fun hst => ?_, fun hst => ?_, fun hst => ?_⟩ <;> simp [hst]

/-- Witness for C3 amended at the store reached by confirm then cancel:
the cancelled reservation blocks all four operations. -/
theorem C3_terminal_guards_witness :
    (confirmReservation fxAfterCancel 130 fxOwner 1).1 =
      .error .invalidTransitionError ∧
    (cancelReservation fxAfterCancel 130 fxOwner 1 none).1 = .error .conflictError ∧
    (completeReservation fxAfterCancel fxOwner 1).1 =
      .error .invalidTransitionError ∧
    (markNoShowReservation fxAfterCancel fxOwner 1).1 =
      .error .invalidTransitionError :=
  (C3_terminal_guards fxAfterCancel 130 fxOwner 1 fxCancelledRec fxRestaurant none
    (by decide) (by decide) (by decide) (by decide) (by decide) (by decide)).1
    (by decide)

/-- C4 counterexample: the update route applies to a cancelled
(terminal-state) reservation and moves it onto a slot that already holds
an active reservation, without any conflict re-check — both guards the
claim asserts are absent from the code. -/
theorem C4_update_ignores_guards :
    (findReservation fxC4Store 1).map Reservation.status = some .cancelled ∧
    hasConflict fxC4Store 10 200 "19:00" = true ∧
    (updateReservation fxC4Store 100 fxUser 1 fxMoveBody).1 =
      .ok { fxCancelledAway with date := 200, time := "19:00" } :=
  ⟨rfl, rfl, rfl⟩

/-- C4 amended: the update route re-validates that a supplied date is
strictly in the future (rejecting with ValidationError otherwise), but it
applies to a found, accessible reservation of any status — terminal states
included — it never re-runs the slot-conflict check, and it persists every
field present in the body, lifecycle fields included. -/
theorem C4_update_behaviour (s : Store) (now : Int) (a : Actor) (rid : Nat)
    (b : UpdateBody) (r : Reservation)
    (hv : validUpdateBody b = true)
    (hf : findReservation s rid = some r)
    (hacc : canAccess s a r = true)
    (hfresh : ∀ x ∈ s.reservations, x.id ≠ r.id →
      x.confirmationCode ≠ (applyUpdate r b).confirmationCode) :
    ((∀ d, b.date = some d → now < d) →
      updateReservation s now a rid b =
        (.ok (applyUpdate r b), replaceReservation s (applyUpdate r b))) ∧
    (∀ d, b.date = some d → d ≤ now →
      updateReservation s now a rid b = (.error .validationError, s)) :=
  ⟨fun hd => update_ok s now a rid b r hv hf hacc hd hfresh,
   fun d hbd hdle => update_past_date s now a rid b r d hv hf hacc hbd hdle⟩

/-- Witness for C4 amended at the concrete store of the counterexample:
the cancelled reservation is moved onto the occupied slot. -/
theorem C4_update_behaviour_witness :
    updateReservation fxC4Store 100 fxUser 1 fxMoveBody =
      (.ok (applyUpdate fxCancelledAway fxMoveBody),
       replaceReservation fxC4Store (applyUpdate fxCancelledAway fxMoveBody)) :=
  (C4_update_behaviour fxC4Store 100 fxUser 1 fxMoveBody fxCancelledAway
    (by decide) (by decide) (by decide) (by decide)).1
    (fun d hd => by
      simp only [fxMoveBody, Option.some.injEq] at hd
      omega)

/-- C5 counterexample: the generic update route overwrites the
confirmation code of an existing reservation, so the code is not immutable
once assigned. -/
theorem C5_code_overwritten :
    (findReservation fxABCStore 1).map Reservation.confirmationCode =
      some "ABC123" ∧
    (updateReservation fxABCStore 100 fxUser 1 fxCodeBody).1 =
      .ok { fxABC with confirmationCode := "NEWCDE" } :=
  ⟨rfl, rfl⟩

/-- C5 amended: every generated confirmation code is a 6-character string
over [A-Z0-9]; a successful creation persists and returns exactly that
code; and the store-level uniqueness guard keeps all persisted codes
pairwise distinct — but the code is not immutable, since the generic
update endpoint can overwrite it. -/
theorem C5_code_generation (draw : Fin 6 → Fin 36) (s : Store) (now : Int)
    (uid : Nat) (q : CreateRequest) (nid : Nat) (rest : Restaurant)
    (hv : validCreateBody q = true) (hfut : now < q.date)
    (hrest : findRestaurant s q.restaurant = some rest)
    (hacc : rest.acceptsReservations = true)
    (hnc : hasConflict s q.restaurant q.date q.time = false)
    (hfresh : ∀ x ∈ s.reservations,
      x.confirmationCode ≠ generateConfirmationCode draw)
    (hnodup : (s.reservations.map Reservation.confirmationCode).Nodup) :
    (generateConfirmationCode draw).length = 6 ∧
    (∀ c ∈ (generateConfirmationCode draw).toList, c ∈ confirmationChars) ∧
    (createReservation s now uid q nid (generateConfirmationCode draw)).1 =
      .ok (newReservationRecord uid q nid (generateConfirmationCode draw)) ∧
    (newReservationRecord uid q nid
      (generateConfirmationCode draw)).confirmationCode =
      generateConfirmationCode draw ∧
    ((createReservation s now uid q nid
        (generateConfirmationCode draw)).2.reservations.map
      Reservation.confirmationCode).Nodup := by
  have hcreate := create_ok s now uid q nid (generateConfirmationCode draw) rest
    hv hfut hrest hacc hnc hfresh
  refine ⟨?_, ?_, ?_, rfl, ?_⟩
  · simp [generateConfirmationCode, String.length]
  · intro c hc
    simp only [generateConfirmationCode, String.toList, List.mem_map,
      List.mem_finRange, true_and] at hc
    obtain ⟨i, hi⟩ := hc
    have hlt : (draw i).val < confirmationChars.length := by
      have h36 : confirmationChars.length = 36 := rfl
      rw [h36]
      exact (draw i).isLt
    rw [← hi, List.getD_eq_getElem confirmationChars 'A' hlt]
    exact List.getElem_mem hlt
  · rw [hcreate]
  · rw [hcreate]
    simp only [List.map_append, List.map_cons, List.map_nil]
    rw [List.nodup_append]
    refine ⟨hnodup, List.nodup_singleton _, ?_⟩
    intro x hx
    simp only [List.mem_map] at hx
    obtain ⟨y, hy, hxy⟩ := hx
    simp only [List.mem_singleton]
    intro hcontra
    rw [hcontra] at hxy
    exact hfresh y hy hxy

/-- Witness for C5 amended: the constant draw yields the code AAAAAA,
creation in the empty store persists and returns it, and the code list
stays duplicate-free. -/
theorem C5_code_generation_witness :
    (generateConfirmationCode (fun _ => (0 : Fin 36))).length = 6 ∧
    (∀ c ∈ (generateConfirmationCode (fun _ => (0 : Fin 36))).toList,
      c ∈ confirmationChars) ∧
    (createReservation fxEmptyStore 100 7 fxReq 1
      (generateConfirmationCode (fun _ => (0 : Fin 36)))).1 =
      .ok (newReservationRecord 7 fxReq 1
        (generateConfirmationCode (fun _ => (0 : Fin 36)))) ∧
    (newReservationRecord 7 fxReq 1
      (generateConfirmationCode (fun _ => (0 : Fin 36)))).confirmationCode =
      generateConfirmationCode (fun _ => (0 : Fin 36)) ∧
    ((createReservation fxEmptyStore 100 7 fxReq 1
        (generateConfirmationCode (fun _ => (0 : Fin 36)))).2.reservations.map
      Reservation.confirmationCode).Nodup :=
  C5_code_generation (fun _ => (0 : Fin 36)) fxEmptyStore 100 7 fxReq 1
    fxRestaurant (by decide) (by decide) (by decide) (by decide) (by decide)
    (by decide) (by decide)

/-- C6: every transition other than cancel attempted on a cancelled
reservation fails with InvalidTransitionError; in particular after confirm
then cancel, a second confirm fails. -/
theorem C6_cancelled_blocks (s : Store) (now : Int) (a : Actor) (rid : Nat)
    (r : Reservation) (rest : Restaurant)
    (hgate : restaurantOwnerGate a = true)
    (hf : findReservation s rid = some r)
    (hrest : findRestaurant s r.restaurant = some rest)
    (howner : rest.owner = a.id)
    (hst : r.status = .cancelled) :
    (confirmReservation s now a rid).1 = .error .invalidTransitionError ∧
    (completeReservation s a rid).1 = .error .invalidTransitionError ∧
    (markNoShowReservation s a rid).1 = .error .invalidTransitionError := by
  rw [confirm_spec s now a rid r rest hgate hf hrest howner,
      complete_spec s a rid r rest hgate hf hrest howner,
      noShow_spec s a rid r rest hgate hf hrest howner]
  simp [hst]

/-- Witness for C6 at the store reached by confirm then cancel: the second
confirm (and complete and markNoShow) fail with InvalidTransitionError. -/
theorem C6_cancelled_blocks_witness :
    (confirmReservation fxAfterCancel 130 fxOwner 1).1 =
      .error .invalidTransitionError ∧
    (completeReservation fxAfterCancel fxOwner 1).1 =
      .error .invalidTransitionError ∧
    (markNoShowReservation fxAfterCancel fxOwner 1).1 =
      .error .invalidTransitionError :=
  C6_cancelled_blocks fxAfterCancel 130 fxOwner 1 fxCancelledRec fxRestaurant
    (by decide) (by decide) (by decide) (by decide) (by decide)

/-- C7: creation with a date less than or equal to the current moment
fails with ValidationError and leaves the store untouched, and the update
route applies the same strictly-in-the-future check to a supplied date. -/
theorem C7_future_date_checks (s s2 : Store) (now : Int) (uid : Nat)
    (q : CreateRequest) (nid : Nat) (code : String) (a : Actor) (rid : Nat)
    (b : UpdateBody) (r : Reservation) (d : Int)
    (hv : validUpdateBody b = true)
    (hf : findReservation s2 rid = some r)
    (hacc : canAccess s2 a r = true)
    (hbd : b.date = some d) :
    (q.date ≤ now →
      createReservation s now uid q nid code = (.error .validationError, s)) ∧
    (d ≤ now →
      updateReservation s2 now a rid b = (.error .validationError, s2)) :=
  ⟨fun hp => create_past_date s now uid q nid code hp,
   fun hp => update_past_date s2 now a rid b r d hv hf hacc hbd hp⟩

/-- Witness for C7: a creation dated at the current moment and an update
moving the date into the past are both rejected with the stores
untouched. -/
theorem C7_future_date_checks_witness :
    createReservation fxEmptyStore 200 7 fxReq 1 "AAAAAA" =
      (.error .validationError, fxEmptyStore) ∧
    updateReservation fxABCStore 200 fxUser 1 fxPastBody =
      (.error .validationError, fxABCStore) :=
  have h := C7_future_date_checks fxEmptyStore fxABCStore 200 7 fxReq 1
    "AAAAAA" fxUser 1 fxPastBody fxABC 50
    (by decide) (by decide) (by decide) (by decide)
  ⟨h.1 (by decide), h.2 (by decide)⟩

/-- C8: a successful confirm sets status confirmed and confirmedAt to the
current time; a successful cancel by the requesting user sets status
cancelled, cancelledAt to the current time, cancelledBy to user and
cancellationReason to the supplied (non-empty) reason. -/
theorem C8_transition_effects (s : Store) (now : Int) (a aU : Actor)
    (rid : Nat) (r : Reservation) (rest : Restaurant) (rsn : String)
    (hgate : restaurantOwnerGate a = true)
    (hf : findReservation s rid = some r)
    (hrest : findRestaurant s r.restaurant = some rest)
    (howner : rest.owner = a.id)
    (hnotc : r.status ≠ .confirmed) (hnotca : r.status ≠ .cancelled)
    (hUrole : aU.role = .user) (hUacc : canAccess s aU r = true)
    (hnotco : r.status ≠ .completed)
    (hlen : rsn.length ≤ 200) (hne : rsn ≠ "") :
    (confirmReservation s now a rid).1 =
      .ok { r with status := .confirmed, confirmedAt := some now } ∧
    (cancelReservation s now aU rid (some rsn)).1 =
      .ok { r with
            status := .cancelled
            cancelledAt := some now
            cancelledBy := some .user
            cancellationReason := some rsn } := by
  rw [confirm_spec s now a rid r rest hgate hf hrest howner,
      cancel_spec s now aU rid r (some rsn)
        (by simp [validCancelBody, hlen]) hf hUacc]
  constructor
  · simp [hnotc, hnotca]
  · simp [hnotca, hnotco, cancelledDoc, hUrole, reasonOrDefault, hne]

/-- Witness for C8: confirming the pending fixture sets confirmedAt, and
the user cancelling it sets the cancellation fields. -/
theorem C8_transition_effects_witness :
    (confirmReservation fxPendingStore 110 fxOwner 1).1 =
      .ok { fxPending with status := .confirmed, confirmedAt := some 110 } ∧
    (cancelReservation fxPendingStore 110 fxUser 1 (some "change of plans")).1 =
      .ok { fxPending with
            status := .cancelled
            cancelledAt := some 110
            cancelledBy := some .user
            cancellationReason := some "change of plans" } :=
  C8_transition_effects fxPendingStore 110 fxOwner fxUser 1 fxPending
    fxRestaurant "change of plans" (by decide) (by decide) (by decide)
    (by decide) (by decide) (by decide) (by decide) (by decide) (by decide)
    (by decide) (by decide)

/-- C9: whenever a lifecycle transition route returns an error — not
found, unauthorized, or a guard violation — the store, and with it the
targeted reservation's status and timestamps, is returned unchanged. -/
theorem C9_error_leaves_store (op : LifecycleOp) (s : Store) (now : Int)
    (a : Actor) (rid : Nat) (reason : Option String) (e : ApiError)
    (h : (runLifecycle op s now a rid reason).1 = .error e) :
    (runLifecycle op s now a rid reason).2 = s := by
  revert h
  cases op <;>
    simp only [runLifecycle, confirmReservation, cancelReservation,
      completeReservation, markNoShowReservation] <;>
    (repeat' split) <;> simp

/-- Witness for C9: a plain user fails the role gate of confirm and the
store comes back untouched. -/
theorem C9_error_leaves_store_witness :
    (runLifecycle .confirmL fxPendingStore 130 fxUser 1 none).1 =
      .error .authorizationError ∧
    (runLifecycle .confirmL fxPendingStore 130 fxUser 1 none).2 =
      fxPendingStore :=
  ⟨rfl, C9_error_leaves_store .confirmL fxPendingStore 130 fxUser 1 none
    .authorizationError rfl⟩

/-- C10: a soft-deleted (isActive false) reservation whose status is still
pending or confirmed keeps blocking its slot — the double-booking findOne
has no isActive filter, so an otherwise valid creation for the triple
fails with ConflictError — while the public lookup by confirmation code,
which does filter on isActive, cannot see it and reports not found. -/
theorem C10_soft_deleted_blocks (s : Store) (now : Int) (uid : Nat)
    (q : CreateRequest) (nid : Nat) (code : String) (rest : Restaurant)
    (r : Reservation)
    (hr : r ∈ s.reservations) (hinact : r.isActive = false)
    (hst : r.status = .pending ∨ r.status = .confirmed)
    (hrid : r.restaurant = q.restaurant) (hd : r.date = q.date)
    (ht : r.time = q.time)
    (hv : validCreateBody q = true) (hfut : now < q.date)
    (hrest : findRestaurant s q.restaurant = some rest)
    (hacc : rest.acceptsReservations = true)
    (honly : ∀ x ∈ s.reservations,
      x.confirmationCode = r.confirmationCode → x = r) :
    hasConflict s q.restaurant q.date q.time = true ∧
    createReservation s now uid q nid code = (.error .conflictError, s) ∧
    getReservationByCode s r.confirmationCode = .error .notFoundError := by
  have hc : hasConflict s q.restaurant q.date q.time = true :=
    (hasConflict_iff s q.restaurant q.date q.time).mpr ⟨r, hr, hrid, hd, ht, hst⟩
  refine ⟨hc, create_conflict s now uid q nid code rest hv hfut hrest hacc hc, ?_⟩
  unfold getReservationByCode
  have hfind : s.reservations.find?
      (fun x => x.confirmationCode == r.confirmationCode && x.isActive) = none := by
    rw [List.find?_eq_none]
    intro x hx
    simp only [Bool.and_eq_true, beq_iff_eq, not_and]
    intro hcode
    rw [honly x hx hcode]
    simp [hinact]
  rw [hfind]

/-- Witness for C10 at the soft-deleted fixture: the slot is blocked,
creation fails with the conflict, and the code lookup reports not
found. -/
theorem C10_soft_deleted_blocks_witness :
    hasConflict fxSoftStore 10 200 "19:00" = true ∧
    createReservation fxSoftStore 100 8 fxReq 2 "BBBBBB" =
      (.error .conflictError, fxSoftStore) ∧
    getReservationByCode fxSoftStore "AAAAAA" = .error .notFoundError :=
  C10_soft_deleted_blocks fxSoftStore 100 8 fxReq 2 "BBBBBB" fxRestaurant
    fxSoftDeleted (by decide) (by decide) (Or.inl (by decide)) (by decide)
    (by decide) (by decide) (by decide) (by decide) (by decide) (by decide)
    (by decide)

end SaboresLusitanos
